import Mathlib

/-!
Verification development for the request rate-limiting core of a FastAPI
demo backend (app/core/rate_limit/: algorithms.py, rate_limiter.py,
storage.py, middleware.py).

Modelling conventions:
* Wall-clock instants (Python time.time) are exact rationals.
* The Redis-backed store is a record of typed key spaces:
  - num: string-keyed float values (token-bucket tokens and last_refill);
  - zset: string-keyed sorted sets; the sliding window stores member
    str(now) with score now, and since the decimal rendering of a float is
    injective the member is represented by its numeric value, so ZADD with
    an already-present timestamp deduplicates exactly as in Redis;
  - counter: fixed-window counters; the Python key is the f-string
    counter_key ++ ":" ++ repr(window_start), modelled by the pair
    (counter_key, window_start), which is a faithful pairing because the
    decimal repr of an integer never contains the ':' delimiter;
  - pres: presence-only keys (whitelist/blacklist entries set to "1",
    queried with EXISTS).
* A storage outage is the flag Store.fail: when it is set every Redis
  operation raises, so each Python try/except block collapses to a test of
  the flag (the except branch is the value returned when fail is set, and
  nothing is mutated because no operation succeeds).
* EXPIRE/TTL bookkeeping is not represented: no claim mentions TTLs, and
  expiry never changes the value a surviving key holds.
* Python int() truncates toward zero (pyInt); floor division // floors.
* Python string truthiness (None and "" are falsy) is pyTruthy.
* A division by zero raises ZeroDivisionError in Python and is caught by
  the surrounding try/except; the embeddings guard window = 0 explicitly
  wherever the source divides by window inside a try block.
-/

/-- Python int() on a rational: truncation toward zero. -/
def pyInt (q : ℚ) : ℤ := if 0 ≤ q then q.floor else -((-q).floor)

/-- Python truthiness of an optional string: None and "" are falsy. -/
def pyTruthy : Option String → Bool
  | none => false
  | some s => s != ""

/-- The external Redis-like store, with a global outage flag. -/
structure Store where
  fail : Bool
  num : String → Option ℚ
  zset : String → List ℚ
  counter : String → ℤ → Option ℤ
  pres : String → Bool

/-- A store holding no keys, with the backend healthy. -/
def emptyStore : Store :=
  { fail := false
    num := fun _ => none
    zset := fun _ => []
    counter := fun _ _ => none
    pres := fun _ => false }

/-- A store whose backend raises on every operation. -/
def failStore : Store := { emptyStore with fail := true }

/-! ## Token Bucket (algorithms.py, class TokenBucket) -/

/-- TokenBucket.__init__: key, limit (tokens per window), window, burst. -/
structure TokenBucket where
  key : String
  limit : ℕ
  window : ℕ
  burst : ℕ

/-- The tokens key rate_limit:tokens:{key}. -/
def TokenBucket.tokens_key (tb : TokenBucket) : String :=
  "rate_limit:tokens:" ++ tb.key

/-- The last-refill key rate_limit:last_refill:{key}. -/
def TokenBucket.last_refill_key (tb : TokenBucket) : String :=
  "rate_limit:last_refill:" ++ tb.key

/-- TokenBucket.is_allowed: refill from elapsed time at rate limit/window,
cap at burst, spend one token if at least one is available. On a storage
error (or the ZeroDivisionError when window = 0) the except branch returns
True. Returns the decision and the updated store. -/
def TokenBucket.is_allowed (tb : TokenBucket) (now : ℚ) (s : Store) :
    Bool × Store :=
  if s.fail || tb.window == 0 then (true, s)
  else
    let current_tokens0 : ℚ := (s.num tb.tokens_key).getD tb.burst
    let last_refill : ℚ := (s.num tb.last_refill_key).getD now
    let time_passed : ℚ := now - last_refill
    let tokens_to_add : ℚ := time_passed * ((tb.limit : ℚ) / (tb.window : ℚ))
    let current_tokens : ℚ := min (current_tokens0 + tokens_to_add) (tb.burst : ℚ)
    if 1 ≤ current_tokens then
      (true,
        { s with
          num := fun k =>
            if k = tb.tokens_key then some (current_tokens - 1)
            else if k = tb.last_refill_key then some now
            else s.num k })
    else
      (false,
        { s with
          num := fun k =>
            if k = tb.last_refill_key then some now else s.num k })

/-- TokenBucket.get_remaining: max(0, int(tokens)), defaulting the token
count to burst when the key is absent; on a storage error returns limit. -/
def TokenBucket.get_remaining (tb : TokenBucket) (s : Store) : ℤ :=
  if s.fail then tb.limit
  else max 0 (pyInt ((s.num tb.tokens_key).getD tb.burst))

/-- TokenBucket.get_reset_time: int(last_refill) + window when the key is
present, otherwise int(now) + window; same default on a storage error. -/
def TokenBucket.get_reset_time (tb : TokenBucket) (now : ℚ) (s : Store) : ℤ :=
  if s.fail then pyInt now + tb.window
  else
    match s.num tb.last_refill_key with
    | some lr => pyInt lr + tb.window
    | none => pyInt now + tb.window

/-! ## Sliding Window (algorithms.py, class SlidingWindow) -/

/-- SlidingWindow.__init__: key, limit (max requests per window), window. -/
structure SlidingWindow where
  key : String
  limit : ℕ
  window : ℕ

/-- The request-set key rate_limit:requests:{key}. -/
def SlidingWindow.requests_key (sw : SlidingWindow) : String :=
  "rate_limit:requests:" ++ sw.key

/-- ZREMRANGEBYSCORE key 0 hi: drop every element with score in [0, hi]. -/
def zremrange (l : List ℚ) (hi : ℚ) : List ℚ :=
  l.filter (fun t => !(0 ≤ t && t ≤ hi))

/-- SlidingWindow.is_allowed: prune entries in [0, now - window], then if
the cardinality is below limit ZADD the member str(now) (deduplicating when
that exact timestamp is already present) and allow, else deny. The pruning
is persisted on both paths. On a storage error the except branch returns
True. -/
def SlidingWindow.is_allowed (sw : SlidingWindow) (now : ℚ) (s : Store) :
    Bool × Store :=
  if s.fail then (true, s)
  else
    let pruned := zremrange (s.zset sw.requests_key) (now - sw.window)
    let current_requests := pruned.length
    if current_requests < sw.limit then
      let updated := if now ∈ pruned then pruned else pruned ++ [now]
      (true, { s with zset := fun k => if k = sw.requests_key then updated else s.zset k })
    else
      (false, { s with zset := fun k => if k = sw.requests_key then pruned else s.zset k })

/-- SlidingWindow.get_remaining: prune, then max(0, limit - cardinality);
the pruning is persisted. On a storage error returns limit. -/
def SlidingWindow.get_remaining (sw : SlidingWindow) (now : ℚ) (s : Store) :
    ℤ × Store :=
  if s.fail then (sw.limit, s)
  else
    let pruned := zremrange (s.zset sw.requests_key) (now - sw.window)
    (max 0 ((sw.limit : ℤ) - pruned.length),
      { s with zset := fun k => if k = sw.requests_key then pruned else s.zset k })

/-- SlidingWindow.get_reset_time: int(score of the oldest entry) + window
when the set is nonempty, otherwise int(now) + window. -/
def SlidingWindow.get_reset_time (sw : SlidingWindow) (now : ℚ) (s : Store) : ℤ :=
  if s.fail then pyInt now + sw.window
  else
    match (s.zset sw.requests_key).min? with
    | some earliest => pyInt earliest + sw.window
    | none => pyInt now + sw.window

/-! ## Fixed Window (algorithms.py, class FixedWindow) -/

/-- FixedWindow.__init__: key, limit (max requests per window), window. -/
structure FixedWindow where
  key : String
  limit : ℕ
  window : ℕ

/-- The counter key prefix rate_limit:counter:{key}. -/
def FixedWindow.counter_key (fw : FixedWindow) : String :=
  "rate_limit:counter:" ++ fw.key

/-- window_start = int(now // window) * window. -/
def windowStart (fw : FixedWindow) (now : ℚ) : ℤ :=
  (now / (fw.window : ℚ)).floor * fw.window

/-- FixedWindow.is_allowed: read the counter of the current window
(0 when absent), INCR and allow when it is below limit, else deny. On a
storage error (or the ZeroDivisionError when window = 0) returns True. -/
def FixedWindow.is_allowed (fw : FixedWindow) (now : ℚ) (s : Store) :
    Bool × Store :=
  if s.fail || fw.window == 0 then (true, s)
  else
    let ws := windowStart fw now
    let current_count : ℤ := (s.counter fw.counter_key ws).getD 0
    if current_count < fw.limit then
      (true,
        { s with
          counter := fun ck w =>
            if ck = fw.counter_key ∧ w = ws then
              some ((s.counter ck w).getD 0 + 1)
            else s.counter ck w })
    else (false, s)

/-- FixedWindow.get_remaining: max(0, limit - counter of the current
window). On a storage error (or window = 0) returns limit. -/
def FixedWindow.get_remaining (fw : FixedWindow) (now : ℚ) (s : Store) : ℤ :=
  if s.fail || fw.window == 0 then fw.limit
  else
    let ws := windowStart fw now
    let current_count : ℤ := (s.counter fw.counter_key ws).getD 0
    max 0 ((fw.limit : ℤ) - current_count)

/-- FixedWindow.get_reset_time: (int(now // window) + 1) * window; when
window = 0 the ZeroDivisionError is caught and int(now) + window returned. -/
def FixedWindow.get_reset_time (fw : FixedWindow) (now : ℚ) : ℤ :=
  if fw.window == 0 then pyInt now + fw.window
  else ((now / (fw.window : ℚ)).floor + 1) * fw.window

/-! ## List storage (storage.py, class RateLimitStorage) -/

/-- RateLimitStorage.is_blacklisted: EXISTS rate_limit:blacklist:{id} > 0;
on a storage error the except branch returns False. -/
def RateLimitStorage.is_blacklisted (identifier : String) (s : Store) : Bool :=
  if s.fail then false else s.pres ("rate_limit:blacklist:" ++ identifier)

/-- RateLimitStorage.is_whitelisted: EXISTS rate_limit:whitelist:{id} > 0;
on a storage error the except branch returns False. -/
def RateLimitStorage.is_whitelisted (identifier : String) (s : Store) : Bool :=
  if s.fail then false else s.pres ("rate_limit:whitelist:" ++ identifier)

/-! ## Orchestrator data model (rate_limiter.py) -/

/-- RateLimitScope: the seven limiting scopes. -/
inductive RateLimitScope where
  | GLOBAL | IP | USER | ENDPOINT | IP_USER | IP_ENDPOINT | USER_ENDPOINT
deriving DecidableEq, Repr

/-- RateLimitResult: the per-decision record returned by the orchestrator. -/
structure RateLimitResult where
  allowed : Bool
  remaining : ℤ
  reset_time : ℤ
  limit : ℤ
  retry_after : Option ℤ
deriving DecidableEq, Repr

/-- RateLimitConfig with the Python constructor defaults. -/
structure RateLimitConfig where
  limit : ℕ := 100
  window : ℕ := 60
  burst : ℕ := 10
  block_duration : ℕ := 60
  enabled : Bool := true
deriving DecidableEq, Repr

/-- The rate-limit fields of the global settings singleton
(settings/config.py), with their declared defaults. -/
structure Settings where
  RATE_LIMIT_ENABLED : Bool := true
  RATE_LIMIT_DEFAULT_REQUESTS : ℕ := 100
  RATE_LIMIT_DEFAULT_BURST : ℕ := 10
  RATE_LIMIT_BLOCK_DURATION : ℕ := 60

/-- Character-wise substitution endpoint.replace("/", "_"). -/
def replaceSlash (e : String) : String :=
  String.mk (e.data.map (fun c => if c = '/' then '_' else c))

/-- RateLimiter._build_rate_limit_key. The source builds key_parts and
joins them with ":"; every branch has a statically known shape, rendered
here as the joined string directly. Scopes whose required field is falsy
(None or "") fall through to the default IP branch. -/
def build_rate_limit_key (scope : RateLimitScope) (identifier : String)
    (endpoint user_id : Option String) : String :=
  match scope with
  | .GLOBAL => "rate_limit" ++ ":" ++ "global"
  | .IP => "rate_limit" ++ ":" ++ "ip" ++ ":" ++ identifier
  | .USER =>
    if pyTruthy user_id then
      "rate_limit" ++ ":" ++ "user" ++ ":" ++ user_id.getD ""
    else "rate_limit" ++ ":" ++ "ip" ++ ":" ++ identifier
  | .ENDPOINT =>
    if pyTruthy endpoint then
      "rate_limit" ++ ":" ++ "endpoint" ++ ":" ++ replaceSlash (endpoint.getD "")
    else "rate_limit" ++ ":" ++ "ip" ++ ":" ++ identifier
  | .IP_USER =>
    if pyTruthy user_id then
      "rate_limit" ++ ":" ++ "ip_user" ++ ":" ++
        (identifier ++ "_" ++ user_id.getD "")
    else "rate_limit" ++ ":" ++ "ip" ++ ":" ++ identifier
  | .IP_ENDPOINT =>
    if pyTruthy endpoint then
      "rate_limit" ++ ":" ++ "ip_endpoint" ++ ":" ++
        (identifier ++ "_" ++ replaceSlash (endpoint.getD ""))
    else "rate_limit" ++ ":" ++ "ip" ++ ":" ++ identifier
  | .USER_ENDPOINT =>
    if pyTruthy user_id && pyTruthy endpoint then
      "rate_limit" ++ ":" ++ "user_endpoint" ++ ":" ++
        (user_id.getD "" ++ "_" ++ replaceSlash (endpoint.getD ""))
    else "rate_limit" ++ ":" ++ "ip" ++ ":" ++ identifier

/-- The unbounded-allow result returned when limiting is disabled or the
identifier is whitelisted. -/
def unboundedAllow (now : ℚ) : RateLimitResult :=
  { allowed := true
    remaining := 999999
    reset_time := pyInt now + 3600
    limit := 999999
    retry_after := none }

/-- RateLimiter.is_allowed (rate_limiter.py): disabled-settings and
disabled-config short circuits, then deny-list, then allow-list, then the
selected algorithm (the algorithms dict falls back to the TokenBucket
class for an unrecognized name, and only the exact name "token_bucket" is
instantiated with the configured burst; the fallback gets the constructor
default burst 10). The outer try/except cannot fire in this model because
every callee catches its own storage errors, matching the source where the
algorithm and storage methods never re-raise. -/
def RateLimiter.is_allowed (st : Settings) (scope : RateLimitScope)
    (identifier : String) (algorithm : String)
    (config? : Option RateLimitConfig) (endpoint user_id : Option String)
    (now : ℚ) (s : Store) : RateLimitResult × Store :=
  if !st.RATE_LIMIT_ENABLED then (unboundedAllow now, s)
  else
    let config := config?.getD
      { limit := st.RATE_LIMIT_DEFAULT_REQUESTS
        window := 60
        burst := st.RATE_LIMIT_DEFAULT_BURST
        block_duration := st.RATE_LIMIT_BLOCK_DURATION }
    if !config.enabled then (unboundedAllow now, s)
    else
      let rate_limit_key := build_rate_limit_key scope identifier endpoint user_id
      if RateLimitStorage.is_blacklisted identifier s then
        ({ allowed := false
           remaining := 0
           reset_time := pyInt now + config.block_duration
           limit := 0
           retry_after := some (config.block_duration : ℤ) }, s)
      else if RateLimitStorage.is_whitelisted identifier s then
        (unboundedAllow now, s)
      else
        let step :=
          if algorithm = "sliding_window" then
            let sw : SlidingWindow := ⟨rate_limit_key, config.limit, config.window⟩
            let a := sw.is_allowed now s
            let rem := sw.get_remaining now a.2
            (a.1, rem.1, sw.get_reset_time now rem.2, rem.2)
          else if algorithm = "fixed_window" then
            let fw : FixedWindow := ⟨rate_limit_key, config.limit, config.window⟩
            let a := fw.is_allowed now s
            (a.1, fw.get_remaining now a.2, fw.get_reset_time now, a.2)
          else
            let tb : TokenBucket :=
              ⟨rate_limit_key, config.limit, config.window,
               if algorithm = "token_bucket" then config.burst else 10⟩
            let a := tb.is_allowed now s
            (a.1, tb.get_remaining a.2, tb.get_reset_time now a.2, a.2)
        let retry_after : Option ℤ :=
          if step.1 then none else some (step.2.2.1 - pyInt now)
        ({ allowed := step.1
           remaining := step.2.1
           reset_time := step.2.2.1
           limit := (config.limit : ℤ)
           retry_after := retry_after }, step.2.2.2)

/-! ## Request sequences -/

/-- Run the orchestrator repeatedly for the same caller, threading the
store, collecting the per-request results. -/
def RateLimiter.run (st : Settings) (scope : RateLimitScope)
    (identifier : String) (algorithm : String)
    (config? : Option RateLimitConfig) (endpoint user_id : Option String)
    (now : ℚ) : ℕ → Store → List RateLimitResult × Store
  | 0, s => ([], s)
  | n + 1, s =>
    let r := RateLimiter.is_allowed st scope identifier algorithm config?
      endpoint user_id now s
    let rest := RateLimiter.run st scope identifier algorithm config?
      endpoint user_id now n r.2
    (r.1 :: rest.1, rest.2)

/-- Run FixedWindow.is_allowed at each instant in turn, threading the
store. -/
def FixedWindow.run (fw : FixedWindow) : List ℚ → Store → List Bool × Store
  | [], s => ([], s)
  | t :: ts, s =>
    let r := fw.is_allowed t s
    let rest := fw.run ts r.2
    (r.1 :: rest.1, rest.2)

/-- Run SlidingWindow.is_allowed at each instant in turn, threading the
store. -/
def SlidingWindow.run (sw : SlidingWindow) : List ℚ → Store → List Bool × Store
  | [], s => ([], s)
  | t :: ts, s =>
    let r := sw.is_allowed t s
    let rest := sw.run ts r.2
    (r.1 :: rest.1, rest.2)

/-! ## Middleware policy resolver (middleware.py) -/

/-- The default rule of RateLimitMiddleware.rate_limit_rules, built from
the settings singleton (burst defaults are those of the constructor). -/
def defaultRuleConfig (st : Settings) : RateLimitConfig :=
  { limit := st.RATE_LIMIT_DEFAULT_REQUESTS
    window := 60
    burst := st.RATE_LIMIT_DEFAULT_BURST
    enabled := true }

/-- RateLimitMiddleware.rate_limit_rules: the per-path table in its
insertion order, including the sentinel "default" entry that the Python
dict also holds. -/
def rate_limit_rules (st : Settings) : List (String × RateLimitConfig) :=
  [("/auth/login", { limit := 10, window := 60, enabled := true }),
   ("/auth/register", { limit := 5, window := 60, enabled := true }),
   ("/auth/refresh", { limit := 20, window := 60, enabled := true }),
   ("/users/register", { limit := 5, window := 3600, enabled := true }),
   ("default", defaultRuleConfig st)]

/-- RateLimitMiddleware.get_rate_limit_config: exact dict lookup, then the
first entry (in insertion order) whose path is a prefix of the request
path, then the "default" entry. -/
def RateLimitMiddleware.get_rate_limit_config (st : Settings) (path : String) :
    RateLimitConfig :=
  match (rate_limit_rules st).find? (fun r => r.1 == path) with
  | some r => r.2
  | none =>
    match (rate_limit_rules st).find? (fun r => path.startsWith r.1) with
    | some r => r.2
    | none => defaultRuleConfig st

/-- The registered rules in the sense of the specification: the per-path
table without the sentinel "default" entry. -/
def registered_rules : List (String × RateLimitConfig) :=
  [("/auth/login", { limit := 10, window := 60, enabled := true }),
   ("/auth/register", { limit := 5, window := 60, enabled := true }),
   ("/auth/refresh", { limit := 20, window := 60, enabled := true }),
   ("/users/register", { limit := 5, window := 3600, enabled := true })]

/-- Modelled from the spec: the resolver the specification describes —
exact match among the registered rules, else the first registered rule (in
registration order) whose path is a string prefix of the request path,
else the default config. -/
def spec_resolve (st : Settings) (path : String) : RateLimitConfig :=
  match registered_rules.find? (fun r => r.1 == path) with
  | some r => r.2
  | none =>
    match registered_rules.find? (fun r => path.startsWith r.1) with
    | some r => r.2
    | none => defaultRuleConfig st

/-! ## Claim C3: Token Bucket burst scenario -/

/-- The settings singleton with its declared defaults (rate limiting
enabled). -/
def c3Settings : Settings := {}

/-- RateLimitConfig(limit=10, window=60, burst=10). -/
def c3Config : RateLimitConfig := { limit := 10, window := 60, burst := 10 }

/-- Eleven same-instant requests from IP 1.2.3.4 through the orchestrator
with the token-bucket algorithm, starting from an empty store. -/
def c3Results : List RateLimitResult :=
  (RateLimiter.run c3Settings .IP "1.2.3.4" "token_bucket" (some c3Config)
    none none 1000 11 emptyStore).1

/-- C3 counterexample: in the claimed scenario the 11th immediate request
is denied with retry_after = 60 seconds, not approximately 6: the token
bucket method get_reset_time is int(last_refill) + window, so the reported wait
is the full window, an order of magnitude away from the one-token
regeneration time 60/10 = 6 s. -/
theorem tokenBucket_burst_scenario_retry_after_not_six :
    c3Results.map (fun r => r.retry_after) =
      [none, none, none, none, none, none, none, none, none, none, some 60] ∧
    ¬((60 : ℤ) ≤ 12) := by
  with_unfolding_all decide

/-- C3 (amended): with RateLimitConfig(limit=10, window=60, burst=10) and
the Token Bucket algorithm, starting from an empty store, 10 same-instant
requests from one IP all return allowed=true with remaining decreasing
9, 8, ..., 0, and the 11th immediate request returns allowed=false with
retry_after = 60 seconds (get_reset_time reports last_refill + window,
not the 6-second one-token regeneration time). -/
theorem tokenBucket_burst_scenario :
    c3Results.map (fun r => (r.allowed, r.remaining, r.retry_after)) =
      [(true, 9, none), (true, 8, none), (true, 7, none), (true, 6, none),
       (true, 5, none), (true, 4, none), (true, 3, none), (true, 2, none),
       (true, 1, none), (true, 0, none), (false, 0, some 60)] := by
  with_unfolding_all decide

/-! ## Claim C4: Sliding Window dedup under-counting -/

/-- A sliding window with limit 2 and window 10 seconds. -/
def swBug : SlidingWindow := ⟨"k", 2, 10⟩

/-- C4 (code_bug): three requests that all carry the identical timestamp
5.0 against SlidingWindow(limit=2, window=10) on an empty key are all
admitted, although the claim (and the spec) require the third — the
(limit+1)th request inside the window — to be denied. The source adds the
member str(now) to the timestamp set, so a second request at the very same
timestamp is deduplicated by ZADD, the cardinality stays at 1, and every
subsequent same-instant request keeps being admitted: exactly the silent
dedup-driven under-counting the spec demands be prevented. -/
theorem slidingWindow_identical_timestamps_undercount :
    (SlidingWindow.run swBug [5, 5, 5] emptyStore).1 = [true, true, true] ∧
    ((SlidingWindow.run swBug [5, 5, 5] emptyStore).2.zset
        swBug.requests_key).length = 1 := by
  with_unfolding_all decide

/-! ## Claim C5: get_remaining bounds -/

/-- C5 counterexample: TokenBucket.get_remaining is not bounded by limit.
For TokenBucket(limit=5, window=60, burst=100) on an empty store the token
count defaults to burst and get_remaining returns 100 > 5 = limit, so the
claimed bound fails for the Token Bucket algorithm. -/
theorem tokenBucket_get_remaining_exceeds_limit :
    TokenBucket.get_remaining ⟨"k", 5, 60, 100⟩ emptyStore = 100 ∧
    ¬(TokenBucket.get_remaining ⟨"k", 5, 60, 100⟩ emptyStore ≤ 5) := by
  with_unfolding_all decide

/-- C5 (amended): for every key, parameters and store state, Sliding
Window keeps get_remaining between 0 and limit; Fixed Window does so for
every store whose counters are nonnegative (every state its own INCR can
produce); Token Bucket keeps get_remaining at least 0 — but the Token Bucket
value is the clamped stored token count (defaulting to burst) and can
exceed limit. -/
theorem get_remaining_bounds :
    (∀ (sw : SlidingWindow) (now : ℚ) (s : Store),
      0 ≤ (sw.get_remaining now s).1 ∧
        (sw.get_remaining now s).1 ≤ (sw.limit : ℤ)) ∧
    (∀ (fw : FixedWindow) (now : ℚ) (s : Store),
      (∀ ck w, 0 ≤ (s.counter ck w).getD 0) →
        0 ≤ fw.get_remaining now s ∧ fw.get_remaining now s ≤ (fw.limit : ℤ)) ∧
    (∀ (tb : TokenBucket) (s : Store), 0 ≤ tb.get_remaining s) := by
  refine ⟨fun sw now s => ?_, fun fw now s hc => ?_, fun tb s => ?_⟩
  · unfold SlidingWindow.get_remaining
    split
    · exact ⟨by positivity, le_refl _⟩
    · exact ⟨le_max_left _ _, max_le (by positivity) (by omega)⟩
  · unfold FixedWindow.get_remaining
    split
    · exact ⟨by positivity, le_refl _⟩
    · exact ⟨le_max_left _ _,
        max_le (by positivity) (by have := hc fw.counter_key (windowStart fw now); omega)⟩
  · unfold TokenBucket.get_remaining
    split
    · positivity
    · exact le_max_left _ _

/-- Witness for the C5 amended bounds at concrete algorithm instances on
the empty store. -/
theorem get_remaining_bounds_witness :
    (0 ≤ (SlidingWindow.get_remaining ⟨"k", 3, 10⟩ 5 emptyStore).1 ∧
      (SlidingWindow.get_remaining ⟨"k", 3, 10⟩ 5 emptyStore).1 ≤ 3) ∧
    (0 ≤ FixedWindow.get_remaining ⟨"k", 3, 10⟩ 5 emptyStore ∧
      FixedWindow.get_remaining ⟨"k", 3, 10⟩ 5 emptyStore ≤ 3) ∧
    0 ≤ TokenBucket.get_remaining ⟨"k", 3, 10, 3⟩ emptyStore :=
  ⟨get_remaining_bounds.1 ⟨"k", 3, 10⟩ 5 emptyStore,
   get_remaining_bounds.2.1 ⟨"k", 3, 10⟩ 5 emptyStore
     (fun ck w => by simp [emptyStore]),
   get_remaining_bounds.2.2 ⟨"k", 3, 10, 3⟩ emptyStore⟩

/-! ## Claim C1: storage errors fail open -/

/-- C1: when the storage backend raises (every operation fails), the
token-bucket check returns True from its except branch, and the
orchestrator is_allowed — whose deny-list, allow-list and algorithm
callees each catch their own storage errors, so no exception ever reaches
the caller (the Lean model is a total function) — returns allowed = true
carrying config.limit as the remaining estimate. -/
theorem tokenBucket_and_limiter_fail_open
    (tb : TokenBucket) (st : Settings) (cfg : RateLimitConfig)
    (scope : RateLimitScope) (identifier algorithm : String)
    (endpoint user_id : Option String) (now : ℚ) (s : Store)
    (h1 : st.RATE_LIMIT_ENABLED = true) (h2 : cfg.enabled = true)
    (hf : s.fail = true) :
    (tb.is_allowed now s).1 = true ∧
    (RateLimiter.is_allowed st scope identifier algorithm (some cfg)
      endpoint user_id now s).1.allowed = true ∧
    (RateLimiter.is_allowed st scope identifier algorithm (some cfg)
      endpoint user_id now s).1.remaining = (cfg.limit : ℤ) := by
  refine ⟨by simp [TokenBucket.is_allowed, hf], ?_, ?_⟩ <;>
  · simp only [RateLimiter.is_allowed, h1, h2, Option.getD_some,
      RateLimitStorage.is_blacklisted, RateLimitStorage.is_whitelisted, hf,
      Bool.not_true, Bool.false_eq_true, if_false, if_true, ite_false]
    split_ifs <;>
      simp [SlidingWindow.is_allowed, SlidingWindow.get_remaining,
        FixedWindow.is_allowed, FixedWindow.get_remaining,
        TokenBucket.is_allowed, TokenBucket.get_remaining, hf]

/-- Witness for C1 at a concrete bucket, settings, config and a failing
store. -/
theorem tokenBucket_and_limiter_fail_open_witness :
    (TokenBucket.is_allowed ⟨"k", 10, 60, 10⟩ 0 failStore).1 = true ∧
    (RateLimiter.is_allowed {} .IP "1.2.3.4" "token_bucket" (some {})
      none none 0 failStore).1.allowed = true ∧
    (RateLimiter.is_allowed {} .IP "1.2.3.4" "token_bucket" (some {})
      none none 0 failStore).1.remaining = 100 :=
  tokenBucket_and_limiter_fail_open ⟨"k", 10, 60, 10⟩ {} {} .IP "1.2.3.4"
    "token_bucket" none none 0 failStore rfl rfl rfl

/-! ## Claim C2: deny-list precedence over allow-list -/

/-- C2: an identifier present in both the deny-list and the allow-list is
denied with retry_after = config.block_duration, and the store is returned
unchanged — the deny-list branch fires before the allow-list check and
before any algorithm can run (every algorithm mutates nothing here because
none is invoked: the returned store is exactly the input store). -/
theorem denylist_precedes_allowlist
    (st : Settings) (cfg : RateLimitConfig) (scope : RateLimitScope)
    (identifier algorithm : String) (endpoint user_id : Option String)
    (now : ℚ) (s : Store)
    (h1 : st.RATE_LIMIT_ENABLED = true) (h2 : cfg.enabled = true)
    (hf : s.fail = false)
    (hb : s.pres ("rate_limit:blacklist:" ++ identifier) = true)
    (hw : s.pres ("rate_limit:whitelist:" ++ identifier) = true) :
    (RateLimiter.is_allowed st scope identifier algorithm (some cfg)
        endpoint user_id now s).1 =
      { allowed := false
        remaining := 0
        reset_time := pyInt now + cfg.block_duration
        limit := 0
        retry_after := some (cfg.block_duration : ℤ) } ∧
    (RateLimiter.is_allowed st scope identifier algorithm (some cfg)
        endpoint user_id now s).2 = s := by
  constructor <;>
    simp [RateLimiter.is_allowed, h1, h2, RateLimitStorage.is_blacklisted,
      hf, hb]

/-- Witness for C2: a store listing 1.2.3.4 on both lists. -/
def bothListedStore : Store :=
  { emptyStore with
    pres := fun k =>
      k == "rate_limit:blacklist:1.2.3.4" ||
      k == "rate_limit:whitelist:1.2.3.4" }

/-- Witness for C2 at a concrete config and the doubly-listed store. -/
theorem denylist_precedes_allowlist_witness :
    (RateLimiter.is_allowed {} .IP "1.2.3.4" "token_bucket" (some {})
        none none 0 bothListedStore).1 =
      { allowed := false
        remaining := 0
        reset_time := pyInt 0 + 60
        limit := 0
        retry_after := some 60 } ∧
    (RateLimiter.is_allowed {} .IP "1.2.3.4" "token_bucket" (some {})
        none none 0 bothListedStore).2 = bothListedStore :=
  denylist_precedes_allowlist {} {} .IP "1.2.3.4" "token_bucket" none none 0
    bothListedStore rfl rfl rfl (by decide) (by decide)

/-! ## Claim C10: fail-open extends to the deny-list check -/

/-- C10: when the storage backend raises, is_blacklisted catches the error
and returns False instead of propagating it, so the orchestrator walks
past the deny check even for an identifier that is on the deny-list, and
(with every later storage operation also failing open) admits it. -/
theorem blacklist_check_fails_open
    (st : Settings) (cfg : RateLimitConfig) (scope : RateLimitScope)
    (identifier algorithm : String) (endpoint user_id : Option String)
    (now : ℚ) (s : Store)
    (h1 : st.RATE_LIMIT_ENABLED = true) (h2 : cfg.enabled = true)
    (hf : s.fail = true)
    (hb : s.pres ("rate_limit:blacklist:" ++ identifier) = true) :
    RateLimitStorage.is_blacklisted identifier s = false ∧
    (RateLimiter.is_allowed st scope identifier algorithm (some cfg)
      endpoint user_id now s).1.allowed = true := by
  refine ⟨by simp [RateLimitStorage.is_blacklisted, hf], ?_⟩
  simp only [RateLimiter.is_allowed, h1, h2, Option.getD_some,
    RateLimitStorage.is_blacklisted, RateLimitStorage.is_whitelisted, hf,
    Bool.not_true, Bool.false_eq_true, if_false, if_true, ite_false]
  split_ifs <;>
    simp [SlidingWindow.is_allowed, FixedWindow.is_allowed,
      TokenBucket.is_allowed, hf]

/-- Witness for C10: a blacklisted identifier on a failing store. -/
def failingListedStore : Store :=
  { failStore with pres := fun k => k == "rate_limit:blacklist:1.2.3.4" }

/-- Witness for C10 at concrete settings, config and store. -/
theorem blacklist_check_fails_open_witness :
    RateLimitStorage.is_blacklisted "1.2.3.4" failingListedStore = false ∧
    (RateLimiter.is_allowed {} .IP "1.2.3.4" "token_bucket" (some {})
      none none 0 failingListedStore).1.allowed = true :=
  blacklist_check_fails_open {} {} .IP "1.2.3.4" "token_bucket" none none 0
    failingListedStore rfl rfl rfl (by decide)

/-! ## Claim C8: deterministic fallback to the IP key -/

/-- C8: scopes whose required field is absent fall back to the IP-scope
key — USER, USER_ENDPOINT and IP_USER when user_id is None, and ENDPOINT,
IP_ENDPOINT and USER_ENDPOINT when endpoint is None — and the builder
never returns an empty key (every branch starts with the "rate_limit"
prefix). -/
theorem build_key_fallback_to_ip :
    ∀ (identifier : String) (endpoint user_id : Option String),
      build_rate_limit_key .USER identifier endpoint none =
        build_rate_limit_key .IP identifier endpoint none ∧
      build_rate_limit_key .USER_ENDPOINT identifier endpoint none =
        build_rate_limit_key .IP identifier endpoint none ∧
      build_rate_limit_key .IP_USER identifier endpoint none =
        build_rate_limit_key .IP identifier endpoint none ∧
      build_rate_limit_key .ENDPOINT identifier none user_id =
        build_rate_limit_key .IP identifier none user_id ∧
      build_rate_limit_key .IP_ENDPOINT identifier none user_id =
        build_rate_limit_key .IP identifier none user_id ∧
      build_rate_limit_key .USER_ENDPOINT identifier none user_id =
        build_rate_limit_key .IP identifier none user_id ∧
      ∀ scope, build_rate_limit_key scope identifier endpoint user_id ≠ "" := by
  intro identifier endpoint user_id
  refine ⟨rfl, ?_, rfl, rfl, rfl, ?_, ?_⟩
  · simp [build_rate_limit_key, pyTruthy]
  · cases user_id with
    | none => rfl
    | some u => simp [build_rate_limit_key, pyTruthy]
  · intro scope
    cases scope <;>
      · simp only [build_rate_limit_key]
        first
        | (split_ifs <;>
            · intro h
              apply congrArg String.data at h
              simp [String.data_append] at h)
        | · intro h
            apply congrArg String.data at h
            simp [String.data_append] at h

/-! ## Claim C6: Fixed Window limit and boundary behavior -/

/-- Running a batch of requests that all land in fixed window w admits all
of them while the window counter stays within limit; the counter ends at
its start value plus the batch size and every other counter cell is
untouched. -/
theorem FixedWindow.run_spec (fw : FixedWindow) (w : ℤ) :
    ∀ (ts : List ℚ) (s : Store), s.fail = false → fw.window ≠ 0 →
    (∀ t ∈ ts, windowStart fw t = w) →
    (s.counter fw.counter_key w).getD 0 + (ts.length : ℤ) ≤ (fw.limit : ℤ) →
    (fw.run ts s).1 = List.replicate ts.length true ∧
    (fw.run ts s).2.fail = false ∧
    ((fw.run ts s).2.counter fw.counter_key w).getD 0 =
      (s.counter fw.counter_key w).getD 0 + (ts.length : ℤ) ∧
    ∀ ck w2, ¬(ck = fw.counter_key ∧ w2 = w) →
      (fw.run ts s).2.counter ck w2 = s.counter ck w2 := by
  intro ts
  induction ts with
  | nil =>
    intro s hfail hw0 _ _
    refine ⟨rfl, hfail, by simp [FixedWindow.run], fun ck w2 _ => rfl⟩
  | cons t ts ih =>
    intro s hfail hw0 hsame hle
    have hww : (fw.window == 0) = false := by simpa using hw0
    have hwt : windowStart fw t = w := hsame t (List.mem_cons_self t ts)
    have hc : (s.counter fw.counter_key w).getD 0 < (fw.limit : ℤ) := by
      have hnn : (0 : ℤ) ≤ (ts.length : ℤ) := by positivity
      push_cast [List.length_cons] at hle
      omega
    have hstep : fw.is_allowed t s =
        (true,
          { s with
            counter := fun ck w2 =>
              if ck = fw.counter_key ∧ w2 = w then
                some ((s.counter ck w2).getD 0 + 1)
              else s.counter ck w2 }) := by
      simp only [FixedWindow.is_allowed, hfail, hww, Bool.or_self, if_false,
        hwt, Bool.false_eq_true]
      rw [if_pos hc]
    have hcnt1 :
        (({ s with
            counter := fun ck w2 =>
              if ck = fw.counter_key ∧ w2 = w then
                some ((s.counter ck w2).getD 0 + 1)
              else s.counter ck w2 } : Store).counter fw.counter_key w).getD 0 =
          (s.counter fw.counter_key w).getD 0 + 1 := by
      simp
    obtain ⟨ih1, ih2, ih3, ih4⟩ := ih
      ({ s with
         counter := fun ck w2 =>
           if ck = fw.counter_key ∧ w2 = w then
             some ((s.counter ck w2).getD 0 + 1)
           else s.counter ck w2 })
      hfail hw0 (fun u hu => hsame u (List.mem_cons_of_mem _ hu))
      (by rw [hcnt1]; push_cast [List.length_cons] at hle ⊢; omega)
    refine ⟨?_, ?_, ?_, ?_⟩
    · simp only [FixedWindow.run, hstep, List.length_cons, List.replicate_succ]
      exact congrArg (true :: ·) ih1
    · simp only [FixedWindow.run, hstep]
      exact ih2
    · simp only [FixedWindow.run, hstep]
      rw [ih3, hcnt1]
      push_cast [List.length_cons]
      ring
    · intro ck w2 hne
      simp only [FixedWindow.run, hstep]
      rw [ih4 ck w2 hne]
      simp only [if_neg hne]

/-- C6: for Fixed Window with a fresh counter key, limit requests inside
one fixed window all succeed, the (limit+1)th request in that same window
is denied, and a request at a time whose window index floor(t/window) is
greater than before succeeds even though the prior window was fully
consumed. -/
theorem fixedWindow_limit_and_boundary (fw : FixedWindow) (ts : List ℚ)
    (tOver tNext : ℚ) (s0 : Store)
    (hfail : s0.fail = false) (hlim : 0 < fw.limit) (hw0 : fw.window ≠ 0)
    (hempty : ∀ w, s0.counter fw.counter_key w = none)
    (hlen : ts.length = fw.limit)
    (hsame : ∀ t ∈ ts, windowStart fw t = windowStart fw tOver)
    (hnext : windowStart fw tOver < windowStart fw tNext) :
    (fw.run ts s0).1 = List.replicate fw.limit true ∧
    (fw.is_allowed tOver (fw.run ts s0).2).1 = false ∧
    (fw.is_allowed tNext (fw.is_allowed tOver (fw.run ts s0).2).2).1 = true := by
  have hww : (fw.window == 0) = false := by simpa using hw0
  obtain ⟨h1, h2, h3, h4⟩ := FixedWindow.run_spec fw (windowStart fw tOver)
    ts s0 hfail hw0 hsame (by rw [hempty]; simp [hlen])
  have hcount : ((fw.run ts s0).2.counter fw.counter_key
      (windowStart fw tOver)).getD 0 = (fw.limit : ℤ) := by
    rw [h3, hempty]
    simp [hlen]
  have hover : fw.is_allowed tOver (fw.run ts s0).2 =
      (false, (fw.run ts s0).2) := by
    simp only [FixedWindow.is_allowed, h2, hww, Bool.or_self, if_false,
      Bool.false_eq_true]
    rw [if_neg]
    rw [hcount]
    exact lt_irrefl _
  refine ⟨by rw [h1, hlen], by rw [hover], ?_⟩
  rw [hover]
  have hpres : (fw.run ts s0).2.counter fw.counter_key
      (windowStart fw tNext) = none := by
    rw [h4 fw.counter_key (windowStart fw tNext)
      (by intro h; exact absurd h.2 (by omega))]
    exact hempty _
  simp only [FixedWindow.is_allowed, h2, hww, Bool.or_self, if_false,
    Bool.false_eq_true, hpres]
  rw [if_pos]
  simp only [Option.getD_none]
  exact_mod_cast hlim

/-- Witness for C6: limit 2, window 10, requests at t = 0 and t = 5, an
overflow request at t = 9 and a next-window request at t = 10. -/
theorem fixedWindow_limit_and_boundary_witness :
    (FixedWindow.run ⟨"k", 2, 10⟩ [0, 5] emptyStore).1 =
      List.replicate 2 true ∧
    (FixedWindow.is_allowed ⟨"k", 2, 10⟩ 9
      (FixedWindow.run ⟨"k", 2, 10⟩ [0, 5] emptyStore).2).1 = false ∧
    (FixedWindow.is_allowed ⟨"k", 2, 10⟩ 10
      ((FixedWindow.is_allowed ⟨"k", 2, 10⟩ 9
        (FixedWindow.run ⟨"k", 2, 10⟩ [0, 5] emptyStore).2).2)).1 = true :=
  fixedWindow_limit_and_boundary ⟨"k", 2, 10⟩ [0, 5] 9 10 emptyStore rfl
    (by decide) (by decide) (fun _ => rfl) rfl
    (by intro t ht; fin_cases ht <;> with_unfolding_all decide)
    (by with_unfolding_all decide)

/-! ## Claim C9: policy resolver -/

/-- C9: for every request path the middleware resolver returns the config
registered for that exact path when one exists, else the config of the
first registered rule (in registration order) whose path is a string
prefix of the request path, else the default config. The Python dict also
carries the sentinel entry keyed "default"; it only ever matches paths
that themselves start with "default", and it holds the default config, so
the resolver coincides with the specification resolver on every path. -/
theorem resolver_matches_spec (st : Settings) (path : String) :
    RateLimitMiddleware.get_rate_limit_config st path = spec_resolve st path := by
  by_cases h1 : path = "/auth/login"
  · subst h1; rfl
  by_cases h2 : path = "/auth/register"
  · subst h2; rfl
  by_cases h3 : path = "/auth/refresh"
  · subst h3; rfl
  by_cases h4 : path = "/users/register"
  · subst h4; rfl
  by_cases h5 : path = "default"
  · subst h5; rfl
  have e1 : (("/auth/login" : String) == path) = false :=
    beq_eq_false_iff_ne.mpr (Ne.symm h1)
  have e2 : (("/auth/register" : String) == path) = false :=
    beq_eq_false_iff_ne.mpr (Ne.symm h2)
  have e3 : (("/auth/refresh" : String) == path) = false :=
    beq_eq_false_iff_ne.mpr (Ne.symm h3)
  have e4 : (("/users/register" : String) == path) = false :=
    beq_eq_false_iff_ne.mpr (Ne.symm h4)
  have e5 : (("default" : String) == path) = false :=
    beq_eq_false_iff_ne.mpr (Ne.symm h5)
  unfold RateLimitMiddleware.get_rate_limit_config spec_resolve
    rate_limit_rules registered_rules
  cases hp1 : path.startsWith "/auth/login" with
  | true => simp [List.find?, e1, e2, e3, e4, e5, hp1]
  | false =>
    cases hp2 : path.startsWith "/auth/register" with
    | true => simp [List.find?, e1, e2, e3, e4, e5, hp1, hp2]
    | false =>
      cases hp3 : path.startsWith "/auth/refresh" with
      | true => simp [List.find?, e1, e2, e3, e4, e5, hp1, hp2, hp3]
      | false =>
        cases hp4 : path.startsWith "/users/register" with
        | true => simp [List.find?, e1, e2, e3, e4, e5, hp1, hp2, hp3, hp4]
        | false =>
          cases hp5 : path.startsWith "default" with
          | true =>
            simp [List.find?, e1, e2, e3, e4, e5, hp1, hp2, hp3, hp4, hp5]
          | false =>
            simp [List.find?, e1, e2, e3, e4, e5, hp1, hp2, hp3, hp4, hp5]

/-! ## Claim C7: key builder collision resistance -/

/-- C7 counterexample: the slash substitution is colliding. The distinct
endpoints a/b and a_b — both present, so neither input is in a fallback
case — produce the identical key rate_limit:endpoint:a_b, refuting the
claimed collision resistance of build_key. -/
theorem build_key_endpoint_collision :
    build_rate_limit_key .ENDPOINT "1.2.3.4" (some "a/b") none =
      build_rate_limit_key .ENDPOINT "1.2.3.4" (some "a_b") none ∧
    ("a/b" : String) ≠ "a_b" := by
  constructor
  · rfl
  · decide

/-- A component free of the delimiter, the join character and the slash
that is substituted into the join character. -/
def CleanStr (s : String) : Prop :=
  ':' ∉ s.data ∧ '_' ∉ s.data ∧ '/' ∉ s.data

/-- The scope tag placed after the rate_limit prefix. -/
def tagStr : RateLimitScope → String
  | .GLOBAL => "global"
  | .IP => "ip"
  | .USER => "user"
  | .ENDPOINT => "endpoint"
  | .IP_USER => "ip_user"
  | .IP_ENDPOINT => "ip_endpoint"
  | .USER_ENDPOINT => "user_endpoint"

/-- The characters of the scope-specific component(s) of the key. -/
def payloadComps (sc : RateLimitScope) (i e u : String) : List Char :=
  match sc with
  | .GLOBAL => []
  | .IP => i.data
  | .USER => u.data
  | .ENDPOINT => (replaceSlash e).data
  | .IP_USER => i.data ++ '_' :: u.data
  | .IP_ENDPOINT => i.data ++ '_' :: (replaceSlash e).data
  | .USER_ENDPOINT => u.data ++ '_' :: (replaceSlash e).data

/-- The components of the decision input the key is meant to encode. -/
def scopeComponents (sc : RateLimitScope) (i e u : String) : List String :=
  match sc with
  | .GLOBAL => []
  | .IP => [i]
  | .USER => [u]
  | .ENDPOINT => [e]
  | .IP_USER => [i, u]
  | .IP_ENDPOINT => [i, e]
  | .USER_ENDPOINT => [u, e]

/-- Splitting at a separator that occurs in neither left part is
unambiguous. -/
theorem append_sep_inj {α : Type} {c : α} :
    ∀ {a₁ a₂ b₁ b₂ : List α}, c ∉ a₁ → c ∉ a₂ →
      a₁ ++ c :: b₁ = a₂ ++ c :: b₂ → a₁ = a₂ ∧ b₁ = b₂ := by
  intro a₁
  induction a₁ with
  | nil =>
    intro a₂ b₁ b₂ h₁ h₂ h
    cases a₂ with
    | nil => simpa using h
    | cons y ys =>
      simp only [List.nil_append, List.cons_append, List.cons.injEq] at h
      exact absurd (h.1 ▸ List.mem_cons_self y ys) h₂
  | cons x xs ih =>
    intro a₂ b₁ b₂ h₁ h₂ h
    cases a₂ with
    | nil =>
      simp only [List.cons_append, List.nil_append, List.cons.injEq] at h
      exact absurd (h.1 ▸ List.mem_cons_self x xs) h₁
    | cons y ys =>
      simp only [List.cons_append, List.cons.injEq] at h
      have hxs := ih (fun hm => h₁ (List.mem_cons_of_mem x hm))
        (fun hm => h₂ (List.mem_cons_of_mem y hm)) h.2
      exact ⟨by rw [h.1, hxs.1], hxs.2⟩

/-- A list not containing the separator cannot equal a separated join. -/
theorem sep_not_mem_ne {α : Type} {c : α} {l t p : List α}
    (hl : c ∉ l) (h : l = t ++ c :: p) : False := by
  subst h
  exact hl (List.mem_append_right t (List.mem_cons_self c p))

/-- No scope tag contains the delimiter. -/
theorem tag_no_colon (sc : RateLimitScope) : ':' ∉ (tagStr sc).data := by
  cases sc <;> decide

/-- The scope tags are pairwise distinct character lists. -/
theorem tag_data_inj (a b : RateLimitScope)
    (h : (tagStr a).data = (tagStr b).data) : a = b := by
  cases a <;> cases b <;> first | rfl | exact absurd h (by decide)

/-- Mapping the slash substitution over a slash-free character list is the
identity. -/
theorem map_slash_id :
    ∀ (l : List Char), '/' ∉ l →
      l.map (fun c => if c = '/' then '_' else c) = l := by
  intro l
  induction l with
  | nil => intro h; rfl
  | cons x xs ih =>
    intro h
    simp only [List.mem_cons, not_or] at h
    have hx : ¬x = '/' := fun hh => h.1 hh.symm
    simp only [List.map_cons, if_neg hx, ih h.2]

/-- Replacing slashes is the identity on a slash-free string. -/
theorem replaceSlash_eq_self (e : String) (h : '/' ∉ e.data) :
    replaceSlash e = e :=
  String.ext (map_slash_id e.data h)

/-- The character view of a key for a non-global scope with both optional
fields present and nonempty: the literal prefix, the scope tag, the
delimiter, then the scope components. -/
theorem build_key_data (sc : RateLimitScope) (i e u : String)
    (hg : sc ≠ .GLOBAL) (he : e ≠ "") (hu : u ≠ "") :
    (build_rate_limit_key sc i (some e) (some u)).data =
      "rate_limit:".data ++ ((tagStr sc).data ++ ':' :: payloadComps sc i e u) := by
  have hte : pyTruthy (some e) = true := by simp [pyTruthy, he]
  have htu : pyTruthy (some u) = true := by simp [pyTruthy, hu]
  cases sc <;>
    first
    | exact absurd rfl hg
    | simp_all [build_rate_limit_key, tagStr, payloadComps, String.data_append]

/-- C7 (amended): build_key is deterministic but not collision-resistant
in general — the '/' to '_' substitution can collide (see the
counterexample) and components are not escaped. On inputs whose
identifier, endpoint and user_id avoid ':', '_' and '/', with both
optional fields present and nonempty (so no fallback fires), equal keys
force the same scope and the same scope-relevant components. -/
theorem build_key_injective_on_clean (sc₁ sc₂ : RateLimitScope)
    (i₁ i₂ e₁ e₂ u₁ u₂ : String)
    (hci₁ : CleanStr i₁) (hci₂ : CleanStr i₂)
    (hce₁ : CleanStr e₁) (hce₂ : CleanStr e₂)
    (hcu₁ : CleanStr u₁) (hcu₂ : CleanStr u₂)
    (hne₁ : e₁ ≠ "") (hne₂ : e₂ ≠ "") (hnu₁ : u₁ ≠ "") (hnu₂ : u₂ ≠ "")
    (h : build_rate_limit_key sc₁ i₁ (some e₁) (some u₁) =
         build_rate_limit_key sc₂ i₂ (some e₂) (some u₂)) :
    sc₁ = sc₂ ∧ scopeComponents sc₁ i₁ e₁ u₁ = scopeComponents sc₂ i₂ e₂ u₂ := by
  have hd := congrArg String.data h
  by_cases g₁ : sc₁ = RateLimitScope.GLOBAL
  · by_cases g₂ : sc₂ = RateLimitScope.GLOBAL
    · subst g₁; subst g₂; exact ⟨rfl, rfl⟩
    · subst g₁
      rw [build_key_data sc₂ i₂ e₂ u₂ g₂ hne₂ hnu₂] at hd
      have hd2 : "global".data =
          (tagStr sc₂).data ++ ':' :: payloadComps sc₂ i₂ e₂ u₂ := by
        have hpre : ("rate_limit" ++ ":" ++ "global").data =
            "rate_limit:".data ++ "global".data := by decide
        rw [show build_rate_limit_key RateLimitScope.GLOBAL i₁ (some e₁)
            (some u₁) = "rate_limit" ++ ":" ++ "global" from rfl, hpre] at hd
        exact List.append_cancel_left hd
      exact (sep_not_mem_ne (by decide) hd2).elim
  · by_cases g₂ : sc₂ = RateLimitScope.GLOBAL
    · subst g₂
      rw [build_key_data sc₁ i₁ e₁ u₁ g₁ hne₁ hnu₁] at hd
      have hd2 : "global".data =
          (tagStr sc₁).data ++ ':' :: payloadComps sc₁ i₁ e₁ u₁ := by
        have hpre : ("rate_limit" ++ ":" ++ "global").data =
            "rate_limit:".data ++ "global".data := by decide
        rw [show build_rate_limit_key RateLimitScope.GLOBAL i₂ (some e₂)
            (some u₂) = "rate_limit" ++ ":" ++ "global" from rfl, hpre] at hd
        exact (List.append_cancel_left hd.symm)
      exact (sep_not_mem_ne (by decide) hd2).elim
    · rw [build_key_data sc₁ i₁ e₁ u₁ g₁ hne₁ hnu₁,
        build_key_data sc₂ i₂ e₂ u₂ g₂ hne₂ hnu₂] at hd
      have hd2 := List.append_cancel_left hd
      obtain ⟨htag, hp⟩ :=
        append_sep_inj (tag_no_colon sc₁) (tag_no_colon sc₂) hd2
      have hsc := tag_data_inj sc₁ sc₂ htag
      subst hsc
      refine ⟨rfl, ?_⟩
      cases sc₁ with
      | GLOBAL => exact absurd rfl g₁
      | IP =>
        simp only [payloadComps] at hp
        simp only [scopeComponents, String.ext hp]
      | USER =>
        simp only [payloadComps] at hp
        simp only [scopeComponents, String.ext hp]
      | ENDPOINT =>
        simp only [payloadComps, replaceSlash_eq_self e₁ hce₁.2.2,
          replaceSlash_eq_self e₂ hce₂.2.2] at hp
        simp only [scopeComponents, String.ext hp]
      | IP_USER =>
        simp only [payloadComps] at hp
        obtain ⟨ha, hb⟩ := append_sep_inj hci₁.2.1 hci₂.2.1 hp
        simp only [scopeComponents, String.ext ha, String.ext hb]
      | IP_ENDPOINT =>
        simp only [payloadComps, replaceSlash_eq_self e₁ hce₁.2.2,
          replaceSlash_eq_self e₂ hce₂.2.2] at hp
        obtain ⟨ha, hb⟩ := append_sep_inj hci₁.2.1 hci₂.2.1 hp
        simp only [scopeComponents, String.ext ha, String.ext hb]
      | USER_ENDPOINT =>
        simp only [payloadComps, replaceSlash_eq_self e₁ hce₁.2.2,
          replaceSlash_eq_self e₂ hce₂.2.2] at hp
        obtain ⟨ha, hb⟩ := append_sep_inj hcu₁.2.1 hcu₂.2.1 hp
        simp only [scopeComponents, String.ext ha, String.ext hb]

/-- Witness for C7 at concrete clean inputs. -/
theorem build_key_injective_on_clean_witness :
    RateLimitScope.IP_USER = RateLimitScope.IP_USER ∧
    scopeComponents .IP_USER "1.2.3.4" "a" "7" =
      scopeComponents .IP_USER "1.2.3.4" "a" "7" :=
  build_key_injective_on_clean .IP_USER .IP_USER "1.2.3.4" "1.2.3.4" "a" "a"
    "7" "7" ⟨by decide, by decide, by decide⟩ ⟨by decide, by decide, by decide⟩
    ⟨by decide, by decide, by decide⟩ ⟨by decide, by decide, by decide⟩
    ⟨by decide, by decide, by decide⟩ ⟨by decide, by decide, by decide⟩
    (by decide) (by decide) (by decide) (by decide) rfl
